import Mathlib

/-!
Shallow embedding of `src/physics/matter-js/components/SetBody.js`, the
shape-to-body configuration and attachment layer (BodyConfigurator) of the
repository.

Modelling choices:
* Numbers are `Rat` (JS numbers used here hold exact small values; all the
  arithmetic the component performs is `max` and division by constants).
* There is a single host entity (the `this` of the mixin); the state carries
  its mutable fields (`body`, `_tempVec2`, `width`, `height`,
  `_originComponent`, origin and center-offset coordinates).
* Bodies live in a heap `Nat → Option BodyRec` addressed by identity; the
  simulation world is the set of member body ids (`Finset Nat`): the world
  collaborator exposes only `add`/`remove` membership operations, with
  removal of a non-member a no-op, per the collaborator contract.
* A matter.js body lists itself as its first constituent part, so the
  attachment loop `body.parts[i].gameObject = this` writes both the body's
  own back-reference (field `gameObject`) and one slot per additional part
  (field `partGameObject`).  `gameObject = true` means the back-reference
  points at the host entity; `false` means it is null/unset.
* `body.destroy = function () { _this.world.remove(_this.body); _this.body.gameObject = null; }`
  captures only the entity (`_this`) and dereferences `_this.body` at call
  time; `invokeDestroy` mirrors that exactly, taking the id of the body the
  hook hangs on only to record which hook is being run (the closure body
  never uses it).
* Collaborator factories (`Bodies.rectangle` etc., `PhysicsEditorParser.parseBody`)
  return opaque handles; a fresh `BodyRec` records the factory called and the
  arguments passed, which is all the configurator can observe of them.
  `Vertices.fromPath` is an arbitrary function parameter `fromPath`.
  `Body.setVertices` replaces the geometry of an existing handle in place.
-/

namespace SetBodyModel

/-- A 2D point, as produced by the path parser or given raw in a config. -/
structure Vec2 where
  x : Rat
  y : Rat
deriving DecidableEq

/-- `GetFastValue(source, key, default)`: the value stored under the key when
present (and not `undefined`), otherwise the default.  Presence of a field is
modelled by `Option`. -/
def GetFastValue {α : Type} (v : Option α) (d : α) : α :=
  v.getD d

/-- The `verts` field of a config: either a path-encoded string (to be run
through `Vertices.fromPath`) or a raw ordered point sequence. -/
inductive VertsSource where
  | path (p : String)
  | raw (ps : List Vec2)
deriving DecidableEq

/-- A config object as accepted by `setBody`.  Every field is optional;
absence is `none` (`GetFastValue` then supplies the default). -/
structure ShapeConfig where
  type : Option String := none
  x : Option Rat := none
  y : Option Rat := none
  width : Option Rat := none
  height : Option Rat := none
  radius : Option Rat := none
  maxSides : Option Rat := none
  slope : Option Rat := none
  sides : Option Rat := none
  verts : Option VertsSource := none
  flagInternal : Option Bool := none
  removeCollinear : Option Rat := none
  minimumArea : Option Rat := none
  addToWorld : Option Bool := none
deriving DecidableEq

/-- The `config` argument of `setBody` before normalisation: a bare string
(shorthand for `{ type: s }`) or a config object.  A null/absent config is
`Option.none` at the call site. -/
inductive Config where
  | str (s : String)
  | obj (c : ShapeConfig)
deriving DecidableEq

/-- The opaque matter.js `options` object handed to the body factories.  The
only field we give it is `addToWorld`, precisely to show the configurator
never reads it from there. -/
structure MatterOpts where
  addToWorld : Option Bool := none
deriving DecidableEq

/-- Which collaborator factory produced a body handle, and with what
arguments — all the configurator can observe of a factory call.  `external`
is a ready-made handle given directly to `setExistingBody`. -/
inductive BodyCtor where
  | external
  | rectangle (x y width height : Rat) (opts : MatterOpts)
  | circle (x y radius : Rat) (opts : MatterOpts) (maxSides : Rat)
  | trapezoid (x y width height slope : Rat) (opts : MatterOpts)
  | polygon (x y sides radius : Rat) (opts : MatterOpts)
  | fromVertices (x y : Rat) (verts : List Vec2) (opts : MatterOpts)
      (flagInternal : Bool) (removeCollinear minimumArea : Rat)
  | physicsEditor (x y width height : Rat) (cfg : ShapeConfig)
deriving DecidableEq

/-- A body handle.  `gameObject` is the back-reference slot of the body
itself (its first constituent part); `partGameObject` the slots of the
remaining parts.  `hasDestroy` records that a destroy hook capturing the
host entity has been installed; `hasTemp` is `hasOwnProperty('temp')`, the
transient-placeholder marker. -/
structure BodyRec where
  ctor : BodyCtor
  verts : List Vec2
  gameObject : Bool
  partGameObject : List Bool
  hasDestroy : Bool
  hasTemp : Bool
deriving DecidableEq

/-- The mutable fields of the host entity (the mixin's `this`). -/
structure GameObject where
  body : Option Nat
  tempVecX : Rat
  tempVecY : Rat
  width : Rat
  height : Rat
  hasOriginComponent : Bool
  originX : Rat
  originY : Rat
  centerOffsetX : Rat
  centerOffsetY : Rat
deriving DecidableEq

/-- Whole-system state: the host entity, the body heap, the simulation
world's membership set, and the next fresh body identity. -/
structure MState where
  go : GameObject
  bodies : Nat → Option BodyRec
  world : Finset Nat
  nextId : Nat

/-- `this.world.remove(body)`: drop the body from simulation membership
(idempotent-safe: removing a non-member is a no-op). -/
def worldRemove (s : MState) (i : Nat) : MState :=
  { s with world := s.world.erase i }

/-- `this.world.add(body)`: add the body to simulation membership. -/
def worldAdd (s : MState) (i : Nat) : MState :=
  { s with world := insert i s.world }

/-- In-place mutation of the body record stored at identity `i`. -/
def updateBody (s : MState) (i : Nat) (f : BodyRec → BodyRec) : MState :=
  { s with bodies := fun j => if j = i then (s.bodies j).map f else s.bodies j }

/-- The `for` loop of `setExistingBody`: `body.parts[i].gameObject = this`
for every constituent part (the body itself is `parts[0]`). -/
def markParts (b : BodyRec) : BodyRec :=
  { b with gameObject := true, partGameObject := b.partGameObject.map (fun _ => true) }

/-- `body.destroy = function destroy () {...}`: install the detachment hook. -/
def installDestroy (b : BodyRec) : BodyRec :=
  { b with hasDestroy := true }

/-- Allocate a fresh body handle as returned by a collaborator factory call:
no back-references, no destroy hook, no `temp` marker. -/
def allocBody (s : MState) (c : BodyCtor) (vs : List Vec2) : MState × Nat :=
  let i := s.nextId
  ({ s with
      bodies := fun j =>
        if j = i then
          some { ctor := c, verts := vs, gameObject := false,
                 partGameObject := [], hasDestroy := false, hasTemp := false }
        else s.bodies j,
      nextId := i + 1 }, i)

/-- `setExistingBody(body, addToWorld)` (SetBody.js lines 102–140):
remove any currently held body from the world, install the new handle on the
entity, set the back-reference on every part, install the destroy hook,
optionally add to the world, and recentre the origin when supported. -/
def setExistingBody (s : MState) (bodyId : Nat) (addToWorld : Option Bool) : MState :=
  -- if (addToWorld === undefined) { addToWorld = true; }
  let add := addToWorld.getD true
  -- if (this.body) { this.world.remove(this.body); }
  let s1 := match s.go.body with
    | some old => worldRemove s old
    | none => s
  -- this.body = body;
  let s2 := { s1 with go := { s1.go with body := some bodyId } }
  -- for (...) { body.parts[i].gameObject = this; }
  let s3 := updateBody s2 bodyId markParts
  -- body.destroy = function destroy () {...};
  let s4 := updateBody s3 bodyId installDestroy
  -- if (addToWorld) { this.world.add(body); }
  let s5 := if add then worldAdd s4 bodyId else s4
  -- if (this._originComponent) { this.setOrigin(...); }
  if s5.go.hasOriginComponent then
    { s5 with go := { s5.go with
        originX := s5.go.originX + s5.go.centerOffsetX,
        originY := s5.go.originY + s5.go.centerOffsetY } }
  else s5

/-- Invoking the destroy hook installed on body `onBody`.  The source closure
is `function () { _this.world.remove(_this.body); _this.body.gameObject = null; }`:
it captures only the entity and dereferences `_this.body` when called, so its
effect lands on whatever body the entity holds at invocation time — `onBody`
only identifies which installed hook is being run and is never consulted by
the closure body itself.  Without an installed hook there is nothing to
invoke; with a null current body the JS closure would fault, which no claim
exercises, so the state is returned unchanged there. -/
def invokeDestroy (s : MState) (onBody : Nat) : MState :=
  match s.bodies onBody with
  | some br =>
    if br.hasDestroy then
      match s.go.body with
      | some cur =>
        let s1 := worldRemove s cur
        -- _this.body.gameObject = null;  (the body's own slot, i.e. parts[0])
        { s1 with bodies := fun j =>
            if j = cur then (s1.bodies j).map (fun b => { b with gameObject := false })
            else s1.bodies j }
      | none => s
    else s
  | none => s

/-- Resolve a `verts` field: a string goes through `Vertices.fromPath`, a raw
sequence is used as-is. -/
def resolveVerts (fromPath : String → List Vec2) : VertsSource → List Vec2
  | .path p => fromPath p
  | .raw ps => ps

/-- `setBody(config, options)` (SetBody.js lines 153–240): the dispatcher.
A falsy config (null/absent, or the empty string) is a no-op.  A bare string
is shorthand for `{ type: s }`.  Defaults resolve explicit field → host
entity state → shape constant, then the shape kind selects the factory call;
an unrecognised kind produces no body.  A produced body is handed to
`setExistingBody` with `config.addToWorld`. -/
def setBody (fromPath : String → List Vec2) (s : MState)
    (config : Option Config) (options : MatterOpts) : MState :=
  match config with
  | none => s
  | some cfg =>
    -- if (!config) { return this; }  — the empty string is also falsy in JS
    if cfg = Config.str "" then s
    else
      let c : ShapeConfig := match cfg with
        | .str t => { type := some t }
        | .obj c0 => c0
      let shapeType := GetFastValue c.type "rectangle"
      let bodyX := GetFastValue c.x s.go.tempVecX
      let bodyY := GetFastValue c.y s.go.tempVecY
      let bodyWidth := GetFastValue c.width s.go.width
      let bodyHeight := GetFastValue c.height s.go.height
      let built : MState × Option Nat :=
        if shapeType = "rectangle" then
          let r := allocBody s (.rectangle bodyX bodyY bodyWidth bodyHeight options) []
          (r.1, some r.2)
        else if shapeType = "circle" then
          let radius := GetFastValue c.radius (max bodyWidth bodyHeight / 2)
          let maxSides := GetFastValue c.maxSides 25
          let r := allocBody s (.circle bodyX bodyY radius options maxSides) []
          (r.1, some r.2)
        else if shapeType = "trapezoid" then
          let slope := GetFastValue c.slope (1 / 2)
          let r := allocBody s (.trapezoid bodyX bodyY bodyWidth bodyHeight slope options) []
          (r.1, some r.2)
        else if shapeType = "polygon" then
          let sides := GetFastValue c.sides 5
          let pRadius := GetFastValue c.radius (max bodyWidth bodyHeight / 2)
          let r := allocBody s (.polygon bodyX bodyY sides pRadius options) []
          (r.1, some r.2)
        else if shapeType = "fromVertices" ∨ shapeType = "fromVerts" then
          match c.verts with
          | none => (s, none)
          | some vsrc =>
            let verts := resolveVerts fromPath vsrc
            -- if (this.body && !this.body.hasOwnProperty('temp'))
            let replaceInPlace : Bool := match s.go.body with
              | some cur => ((s.bodies cur).map (fun b => !b.hasTemp)).getD false
              | none => false
            match s.go.body, replaceInPlace with
            | some cur, true =>
              -- Body.setVertices(this.body, verts);  body = this.body;
              (updateBody s cur (fun b => { b with verts := verts }), some cur)
            | _, _ =>
              let flagInternal := GetFastValue c.flagInternal false
              let removeCollinear := GetFastValue c.removeCollinear (1 / 100)
              let minimumArea := GetFastValue c.minimumArea 10
              let r := allocBody s
                (.fromVertices bodyX bodyY verts options flagInternal removeCollinear minimumArea)
                verts
              (r.1, some r.2)
        else if shapeType = "fromPhysicsEditor" then
          let r := allocBody s (.physicsEditor bodyX bodyY bodyWidth bodyHeight c) []
          (r.1, some r.2)
        else (s, none)
      -- if (body) { this.setExistingBody(body, config.addToWorld); }
      match built with
      | (s1, some i) => setExistingBody s1 i c.addToWorld
      | (s1, none) => s1

/-- `setRectangle(width, height, options)` (lines 35–38). -/
def setRectangle (fromPath : String → List Vec2) (s : MState)
    (width height : Rat) (options : MatterOpts) : MState :=
  setBody fromPath s
    (some (.obj { type := some "rectangle", width := some width, height := some height }))
    options

/-- `setCircle(radius, options)` (lines 51–54). -/
def setCircle (fromPath : String → List Vec2) (s : MState)
    (radius : Rat) (options : MatterOpts) : MState :=
  setBody fromPath s (some (.obj { type := some "circle", radius := some radius })) options

/-- `setPolygon(radius, sides, options)` (lines 68–71). -/
def setPolygon (fromPath : String → List Vec2) (s : MState)
    (radius sides : Rat) (options : MatterOpts) : MState :=
  setBody fromPath s
    (some (.obj { type := some "polygon", sides := some sides, radius := some radius }))
    options

/-- `setTrapezoid(width, height, slope, options)` (lines 86–89). -/
def setTrapezoid (fromPath : String → List Vec2) (s : MState)
    (width height slope : Rat) (options : MatterOpts) : MState :=
  setBody fromPath s
    (some (.obj { type := some "trapezoid", width := some width,
                  height := some height, slope := some slope }))
    options

/-- The operations of the component, for stating invariants over arbitrary
call sequences. -/
inductive AttachOp where
  | existing (bodyId : Nat) (addToWorld : Option Bool)
  | configure (config : Option Config) (options : MatterOpts)
  | hookInvoke (onBody : Nat)

/-- One component operation. -/
def runOp (fromPath : String → List Vec2) (s : MState) : AttachOp → MState
  | .existing b w => setExistingBody s b w
  | .configure c o => setBody fromPath s c o
  | .hookInvoke b => invokeDestroy s b

/-- A sequence of component operations. -/
def runOps (fromPath : String → List Vec2) (s : MState) (ops : List AttachOp) : MState :=
  ops.foldl (runOp fromPath) s

/-- Number of active bodies the entity holds (its single body slot). -/
def activeBodyCount (s : MState) : Nat :=
  match s.go.body with
  | some _ => 1
  | none => 0

/-- A host entity with no body yet, width 40 and height 20, used as a
concrete test state. -/
def go0 : GameObject :=
  { body := none, tempVecX := 0, tempVecY := 0, width := 40, height := 20,
    hasOriginComponent := false, originX := 0, originY := 0,
    centerOffsetX := 0, centerOffsetY := 0 }

/-- A ready-made external body handle with two extra parts, not yet attached
anywhere. -/
def extBody : BodyRec :=
  { ctor := .external, verts := [], gameObject := false,
    partGameObject := [false, false], hasDestroy := false, hasTemp := false }

/-- Concrete state: the entity of `go0`, two external handles 0 and 1 in the
heap, empty world. -/
def s0 : MState :=
  { go := go0,
    bodies := fun j => if j = 0 ∨ j = 1 then some extBody else none,
    world := ∅, nextId := 2 }

/-- A host entity of width 10 and height 10 with no body and an empty heap. -/
def s10 : MState :=
  { go := { go0 with width := 10, height := 10 },
    bodies := fun _ => none, world := ∅, nextId := 0 }

/-- Concrete `fromVertices` config with a raw three-point source. -/
def cVertsW : ShapeConfig :=
  { type := some "fromVertices", verts := some (.raw [⟨0,0⟩, ⟨2,0⟩, ⟨0,2⟩]) }

/-- Concrete circle config with no radius and no maxSides. -/
def cCircleW : ShapeConfig := { type := some "circle" }

/-- Concrete polygon config with no sides and no radius. -/
def cPolyW : ShapeConfig := { type := some "polygon" }

/-! ### Projection lemmas for the attachment operation -/

/-- After `setExistingBody` the entity's body slot holds exactly the new handle. -/
theorem setExistingBody_go_body (s : MState) (b : Nat) (w : Option Bool) :
    (setExistingBody s b w).go.body = some b := by
  unfold setExistingBody worldRemove worldAdd updateBody
  cases hb : s.go.body <;> cases hga : w.getD true <;> simp [hb, hga] <;> split <;> simp

/-- `setExistingBody` allocates nothing. -/
theorem setExistingBody_nextId (s : MState) (b : Nat) (w : Option Bool) :
    (setExistingBody s b w).nextId = s.nextId := by
  unfold setExistingBody worldRemove worldAdd updateBody
  cases hb : s.go.body <;> cases hga : w.getD true <;> simp [hb, hga] <;> split <;> simp

/-- Effect of `setExistingBody` on the new body's record: every part gets the
back-reference and the destroy hook is installed. -/
theorem setExistingBody_bodies_self (s : MState) (b : Nat) (w : Option Bool) :
    (setExistingBody s b w).bodies b
      = (s.bodies b).map (fun x => installDestroy (markParts x)) := by
  unfold setExistingBody worldRemove worldAdd updateBody
  cases hb : s.go.body <;> cases hga : w.getD true <;>
    simp [hb, hga, Option.map_map, Function.comp_def] <;> split <;>
    simp [Option.map_map, Function.comp_def]

/-- `setExistingBody` touches no body record other than the new body's. -/
theorem setExistingBody_bodies_other (s : MState) (b j : Nat) (w : Option Bool) (hj : j ≠ b) :
    (setExistingBody s b w).bodies j = s.bodies j := by
  unfold setExistingBody worldRemove worldAdd updateBody
  cases hb : s.go.body <;> cases hga : w.getD true <;> simp [hb, hga, hj] <;> split <;> simp [hj]

/-- World membership after `setExistingBody`: the previously held body is
erased, then the new body is inserted when the flag resolves to true. -/
theorem setExistingBody_world (s : MState) (b : Nat) (w : Option Bool) :
    (setExistingBody s b w).world =
      (if w.getD true then insert b else id)
        (match s.go.body with
          | some old => s.world.erase old
          | none => s.world) := by
  unfold setExistingBody worldRemove worldAdd updateBody
  cases hb : s.go.body <;> cases hga : w.getD true <;> simp [hb, hga] <;> split <;> simp

/-! ### Case equations for the dispatcher -/

/-- Dispatcher, `'rectangle'` case. -/
theorem setBody_obj_rectangle (fp : String → List Vec2) (s : MState) (c : ShapeConfig)
    (o : MatterOpts) (ht : c.type = some "rectangle") :
    setBody fp s (some (.obj c)) o =
      setExistingBody
        (allocBody s
          (.rectangle (GetFastValue c.x s.go.tempVecX) (GetFastValue c.y s.go.tempVecY)
            (GetFastValue c.width s.go.width) (GetFastValue c.height s.go.height) o) []).1
        s.nextId c.addToWorld := by
  simp [setBody, GetFastValue, ht, allocBody]

/-- Dispatcher, `'circle'` case. -/
theorem setBody_obj_circle (fp : String → List Vec2) (s : MState) (c : ShapeConfig)
    (o : MatterOpts) (ht : c.type = some "circle") :
    setBody fp s (some (.obj c)) o =
      setExistingBody
        (allocBody s
          (.circle (GetFastValue c.x s.go.tempVecX) (GetFastValue c.y s.go.tempVecY)
            (GetFastValue c.radius
              (max (GetFastValue c.width s.go.width) (GetFastValue c.height s.go.height) / 2))
            o (GetFastValue c.maxSides 25)) []).1
        s.nextId c.addToWorld := by
  simp [setBody, GetFastValue, ht, allocBody]

/-- Dispatcher, `'polygon'` case. -/
theorem setBody_obj_polygon (fp : String → List Vec2) (s : MState) (c : ShapeConfig)
    (o : MatterOpts) (ht : c.type = some "polygon") :
    setBody fp s (some (.obj c)) o =
      setExistingBody
        (allocBody s
          (.polygon (GetFastValue c.x s.go.tempVecX) (GetFastValue c.y s.go.tempVecY)
            (GetFastValue c.sides 5)
            (GetFastValue c.radius
              (max (GetFastValue c.width s.go.width) (GetFastValue c.height s.go.height) / 2))
            o) []).1
        s.nextId c.addToWorld := by
  simp [setBody, GetFastValue, ht, allocBody]

/-- Dispatcher, `'trapezoid'` case. -/
theorem setBody_obj_trapezoid (fp : String → List Vec2) (s : MState) (c : ShapeConfig)
    (o : MatterOpts) (ht : c.type = some "trapezoid") :
    setBody fp s (some (.obj c)) o =
      setExistingBody
        (allocBody s
          (.trapezoid (GetFastValue c.x s.go.tempVecX) (GetFastValue c.y s.go.tempVecY)
            (GetFastValue c.width s.go.width) (GetFastValue c.height s.go.height)
            (GetFastValue c.slope (1 / 2)) o) []).1
        s.nextId c.addToWorld := by
  simp [setBody, GetFastValue, ht, allocBody]

/-- Dispatcher with a config object carrying no `type` field: the default
shape kind `'rectangle'` applies. -/
theorem setBody_obj_noType (fp : String → List Vec2) (s : MState) (c : ShapeConfig)
    (o : MatterOpts) (ht : c.type = none) :
    setBody fp s (some (.obj c)) o =
      setExistingBody
        (allocBody s
          (.rectangle (GetFastValue c.x s.go.tempVecX) (GetFastValue c.y s.go.tempVecY)
            (GetFastValue c.width s.go.width) (GetFastValue c.height s.go.height) o) []).1
        s.nextId c.addToWorld := by
  simp [setBody, GetFastValue, ht, allocBody]

/-- Dispatcher, `'fromVertices'` with a resolvable source on an entity holding
a non-transient body: in-place vertex replacement of the held body. -/
theorem setBody_fromVertices_inPlace (fp : String → List Vec2) (s : MState) (c : ShapeConfig)
    (o : MatterOpts) (src : VertsSource) (cur : Nat) (br : BodyRec)
    (ht : c.type = some "fromVertices") (hv : c.verts = some src)
    (hb : s.go.body = some cur) (hbr : s.bodies cur = some br) (htemp : br.hasTemp = false) :
    setBody fp s (some (.obj c)) o =
      setExistingBody
        (updateBody s cur (fun b => { b with verts := resolveVerts fp src }))
        cur c.addToWorld := by
  simp [setBody, GetFastValue, ht, hv, hb, hbr, htemp]

/-- Dispatcher, `'fromVertices'` with a resolvable source on an entity holding
no body: fresh construction through `Bodies.fromVertices`. -/
theorem setBody_fromVertices_fresh (fp : String → List Vec2) (s : MState) (c : ShapeConfig)
    (o : MatterOpts) (src : VertsSource)
    (ht : c.type = some "fromVertices") (hv : c.verts = some src)
    (hb : s.go.body = none) :
    setBody fp s (some (.obj c)) o =
      setExistingBody
        (allocBody s
          (.fromVertices (GetFastValue c.x s.go.tempVecX) (GetFastValue c.y s.go.tempVecY)
            (resolveVerts fp src) o (GetFastValue c.flagInternal false)
            (GetFastValue c.removeCollinear (1 / 100)) (GetFastValue c.minimumArea 10))
          (resolveVerts fp src)).1
        s.nextId c.addToWorld := by
  simp [setBody, GetFastValue, ht, hv, hb, allocBody]

/-! ### The claims -/

/-- Claim C1 — the claim says that invoking the detachment hook installed on
an old body B1, after a newer body B2 has been attached to the same entity,
must not remove B2 from world membership and must not clear B2's
back-reference.  The code does the opposite: the hook reads `_this.body` at
invocation time, which then resolves to B2.  Evaluation at the failing input
(entity of `s0`; attach body 0, attach body 1, invoke the hook installed on
body 0): before invocation body 1 is a world member with its back-reference
set; after invocation body 1 is still the entity's active body, yet it has
been removed from the world and its back-reference has been cleared. -/
theorem stale_hook_strikes_new_body :
    (1 ∈ (setExistingBody (setExistingBody s0 0 none) 1 none).world ∧
     ((setExistingBody (setExistingBody s0 0 none) 1 none).bodies 1).map BodyRec.gameObject
       = some true) ∧
    (let s3 := invokeDestroy (setExistingBody (setExistingBody s0 0 none) 1 none) 0
     s3.go.body = some 1 ∧ 1 ∉ s3.world ∧
     (s3.bodies 1).map BodyRec.gameObject = some false) := by decide

/-- Claim C2 — an entity holds at most one active body over any sequence of
component operations (its body slot holds at most one handle), and attaching
a new body B2 to an entity that currently holds a different body B1 leaves
exactly B2 installed and B1 outside the simulation world. -/
theorem attach_single_active_body (fp : String → List Vec2) (t : MState) (ops : List AttachOp)
    (s : MState) (b1 b2 : Nat) (w : Option Bool)
    (hold : s.go.body = some b1) (hne : b1 ≠ b2) :
    activeBodyCount (runOps fp t ops) ≤ 1 ∧
    (setExistingBody s b2 w).go.body = some b2 ∧
    b1 ∉ (setExistingBody s b2 w).world := by
  refine ⟨?_, setExistingBody_go_body s b2 w, ?_⟩
  · cases h : (runOps fp t ops).go.body <;> simp [activeBodyCount, h]
  · rw [setExistingBody_world, hold]
    cases hw : w.getD true <;> simp [hw, Finset.mem_erase, Finset.mem_insert, hne]

/-- Witness for C2: on `s0` attach body 0, then attach body 1; body 0 is no
longer a world member and body 1 is the single active body. -/
theorem attach_single_active_body_w :
    (setExistingBody s0 0 none).go.body = some 0 ∧ (0 : Nat) ≠ 1 ∧
    (activeBodyCount (runOps (fun _ => []) s0 []) ≤ 1 ∧
     (setExistingBody (setExistingBody s0 0 none) 1 none).go.body = some 1 ∧
     0 ∉ (setExistingBody (setExistingBody s0 0 none) 1 none).world) :=
  ⟨by decide, by decide,
    attach_single_active_body (fun _ => []) s0 [] (setExistingBody s0 0 none) 0 1 none
      (by decide) (by decide)⟩

/-- Claim C4 — the claim says every part of an attached body carries the
back-reference (which holds: first conjunct) and that the back-reference is
cleared exactly when the body is destroyed and on no other occasion (which
the code violates).  Evaluation at the failing input (attach body 0, attach
body 1, invoke the hook installed on body 0): body 1's back-reference is
cleared although body 1's own hook was never invoked, while body 0 — the body
whose destroy hook ran — keeps its back-reference set. -/
theorem destroy_clears_wrong_backref :
    ((setExistingBody s0 0 none).bodies 0
       = some { ctor := .external, verts := [], gameObject := true,
                partGameObject := [true, true], hasDestroy := true, hasTemp := false }) ∧
    (let s3 := invokeDestroy (setExistingBody (setExistingBody s0 0 none) 1 none) 0
     (s3.bodies 1).map BodyRec.gameObject = some false ∧
     (s3.bodies 0).map BodyRec.gameObject = some true) := by decide

/-- Claim C5 — attaching with `addToWorld = false` still removes a previously
held (distinct) body from world membership and still sets the back-reference
on the new body and on every one of its parts, but does not add the new body
to the world. -/
theorem setExistingBody_no_world_add (s : MState) (b2 : Nat) (br : BodyRec)
    (hb : s.bodies b2 = some br) (hw : b2 ∉ s.world) :
    (∀ b1, s.go.body = some b1 → b1 ≠ b2 →
      b1 ∉ (setExistingBody s b2 (some false)).world) ∧
    (setExistingBody s b2 (some false)).bodies b2 = some (installDestroy (markParts br)) ∧
    (installDestroy (markParts br)).gameObject = true ∧
    (∀ g ∈ (installDestroy (markParts br)).partGameObject, g = true) ∧
    b2 ∉ (setExistingBody s b2 (some false)).world := by
  refine ⟨?_, ?_, ?_, ?_, ?_⟩
  · intro b1 h1 h2
    rw [setExistingBody_world, h1]
    simp [Finset.mem_erase]
  · rw [setExistingBody_bodies_self, hb]
    rfl
  · simp [installDestroy, markParts]
  · intro g hg
    simp only [installDestroy, markParts, List.mem_map] at hg
    obtain ⟨a, ha1, ha2⟩ := hg
    exact ha2.symm
  · rw [setExistingBody_world]
    cases h : s.go.body <;> simp [Finset.mem_erase, hw]

/-- Witness for C5: attach body 0 on `s0`, then attach body 1 with
`addToWorld = false`; the old body leaves the world, every part of body 1
gets the back-reference, and body 1 is not in the world. -/
theorem setExistingBody_no_world_add_w :
    (setExistingBody s0 0 none).bodies 1 = some extBody ∧
    1 ∉ (setExistingBody s0 0 none).world ∧
    ((∀ b1, (setExistingBody s0 0 none).go.body = some b1 → b1 ≠ 1 →
        b1 ∉ (setExistingBody (setExistingBody s0 0 none) 1 (some false)).world) ∧
      (setExistingBody (setExistingBody s0 0 none) 1 (some false)).bodies 1
        = some (installDestroy (markParts extBody)) ∧
      (installDestroy (markParts extBody)).gameObject = true ∧
      (∀ g ∈ (installDestroy (markParts extBody)).partGameObject, g = true) ∧
      1 ∉ (setExistingBody (setExistingBody s0 0 none) 1 (some false)).world) :=
  ⟨by decide, by decide,
    setExistingBody_no_world_add (setExistingBody s0 0 none) 1 extBody (by decide) (by decide)⟩

/-- Claim C6 — a null/absent config is a no-op: the dispatcher returns the
host entity with its active body and the simulation world membership
unchanged (indeed the whole state unchanged). -/
theorem setBody_null_noop (fp : String → List Vec2) (s : MState) (o : MatterOpts) :
    setBody fp s none o = s ∧ (setBody fp s none o).go.body = s.go.body ∧
    (setBody fp s none o).world = s.world :=
  ⟨rfl, rfl, rfl⟩

/-- Claim C3 — a `fromVertices` config with a resolvable vertex source: on an
entity holding a prior non-transient body, that body's vertices are replaced
in place (same identity stays installed, nothing is allocated, the factory
tag is untouched); on an entity holding no body, a fresh body is produced by
the `Bodies.fromVertices` factory with the resolved cleanup flags. -/
theorem fromVertices_inplace_or_fresh (fp : String → List Vec2) (s : MState)
    (c : ShapeConfig) (o : MatterOpts) (src : VertsSource)
    (ht : c.type = some "fromVertices") (hv : c.verts = some src) :
    (∀ cur br, s.go.body = some cur → s.bodies cur = some br → br.hasTemp = false →
      (setBody fp s (some (.obj c)) o).go.body = some cur ∧
      (setBody fp s (some (.obj c)) o).nextId = s.nextId ∧
      ((setBody fp s (some (.obj c)) o).bodies cur).map BodyRec.verts
        = some (resolveVerts fp src) ∧
      ((setBody fp s (some (.obj c)) o).bodies cur).map BodyRec.ctor = some br.ctor) ∧
    (s.go.body = none →
      (setBody fp s (some (.obj c)) o).go.body = some s.nextId ∧
      ((setBody fp s (some (.obj c)) o).bodies s.nextId).map BodyRec.ctor =
        some (.fromVertices (GetFastValue c.x s.go.tempVecX) (GetFastValue c.y s.go.tempVecY)
          (resolveVerts fp src) o (GetFastValue c.flagInternal false)
          (GetFastValue c.removeCollinear (1 / 100)) (GetFastValue c.minimumArea 10))) := by
  constructor
  · intro cur br hb hbr htemp
    rw [setBody_fromVertices_inPlace fp s c o src cur br ht hv hb hbr htemp]
    refine ⟨setExistingBody_go_body .., ?_, ?_, ?_⟩
    · rw [setExistingBody_nextId]
      rfl
    · rw [setExistingBody_bodies_self]
      simp [updateBody, hbr, markParts, installDestroy]
    · rw [setExistingBody_bodies_self]
      simp [updateBody, hbr, markParts, installDestroy]
  · intro hb
    rw [setBody_fromVertices_fresh fp s c o src ht hv hb]
    refine ⟨setExistingBody_go_body .., ?_⟩
    rw [setExistingBody_bodies_self]
    simp [allocBody, markParts, installDestroy]

/-- Witness for C3, both branches: on `s0` (no body) the config `cVertsW`
produces a fresh `fromVertices` body with default cleanup flags; on `s0`
with body 0 attached (non-transient), the same config keeps body 0 installed,
allocates nothing, rewrites its vertices and keeps its factory tag. -/
theorem fromVertices_inplace_or_fresh_w :
    (cVertsW.type = some "fromVertices" ∧
      cVertsW.verts = some (.raw [⟨0,0⟩, ⟨2,0⟩, ⟨0,2⟩])) ∧
    ((setBody (fun _ => []) s0 (some (.obj cVertsW)) {}).go.body = some 2 ∧
     ((setBody (fun _ => []) s0 (some (.obj cVertsW)) {}).bodies 2).map BodyRec.ctor =
       some (.fromVertices 0 0 [⟨0,0⟩, ⟨2,0⟩, ⟨0,2⟩] {} false (1/100) 10)) ∧
    ((setBody (fun _ => []) (setExistingBody s0 0 none) (some (.obj cVertsW)) {}).go.body
       = some 0 ∧
     (setBody (fun _ => []) (setExistingBody s0 0 none) (some (.obj cVertsW)) {}).nextId = 2 ∧
     ((setBody (fun _ => []) (setExistingBody s0 0 none)
         (some (.obj cVertsW)) {}).bodies 0).map BodyRec.verts
       = some [⟨0,0⟩, ⟨2,0⟩, ⟨0,2⟩] ∧
     ((setBody (fun _ => []) (setExistingBody s0 0 none)
         (some (.obj cVertsW)) {}).bodies 0).map BodyRec.ctor
       = some .external) := by
  refine ⟨⟨rfl, rfl⟩, ?_, ?_⟩
  · have h := (fromVertices_inplace_or_fresh (fun _ => []) s0 cVertsW {}
      (.raw [⟨0,0⟩, ⟨2,0⟩, ⟨0,2⟩]) rfl rfl).2 rfl
    with_unfolding_all exact h
  · have h := (fromVertices_inplace_or_fresh (fun _ => []) (setExistingBody s0 0 none)
      cVertsW {} (.raw [⟨0,0⟩, ⟨2,0⟩, ⟨0,2⟩]) rfl rfl).1 0
      (installDestroy (markParts extBody)) (by decide) (by decide) (by decide)
    with_unfolding_all exact h

/-- Claim C7 — a circle config with no explicit radius resolves the radius to
`max(width, height) / 2` (width and height themselves falling back to the
host entity), and the polygon-approximation `maxSides` defaults to 25. -/
theorem circle_radius_default (fp : String → List Vec2) (s : MState) (c : ShapeConfig)
    (o : MatterOpts) (ht : c.type = some "circle") (hr : c.radius = none)
    (hm : c.maxSides = none) :
    (setBody fp s (some (.obj c)) o).go.body = some s.nextId ∧
    ((setBody fp s (some (.obj c)) o).bodies s.nextId).map BodyRec.ctor =
      some (.circle (GetFastValue c.x s.go.tempVecX) (GetFastValue c.y s.go.tempVecY)
        (max (GetFastValue c.width s.go.width) (GetFastValue c.height s.go.height) / 2)
        o 25) := by
  rw [setBody_obj_circle fp s c o ht]
  refine ⟨setExistingBody_go_body .., ?_⟩
  rw [setExistingBody_bodies_self]
  simp [allocBody, hr, hm, GetFastValue, markParts, installDestroy]

/-- Witness for C7: on the host entity of width 40 and height 20 the resolved
radius is 20 and maxSides is 25. -/
theorem circle_radius_default_w :
    (cCircleW.type = some "circle" ∧ cCircleW.radius = none ∧ cCircleW.maxSides = none) ∧
    ((setBody (fun _ => []) s0 (some (.obj cCircleW)) {}).go.body = some 2 ∧
     ((setBody (fun _ => []) s0 (some (.obj cCircleW)) {}).bodies 2).map BodyRec.ctor =
       some (.circle 0 0 20 {} 25)) := by
  refine ⟨⟨rfl, rfl, rfl⟩, ?_⟩
  have h := circle_radius_default (fun _ => []) s0 cCircleW {} rfl rfl rfl
  with_unfolding_all exact h

/-- Claim C8 — a polygon config with no explicit sides and no explicit radius
resolves to 5 sides and radius `max(width, height) / 2`. -/
theorem polygon_defaults (fp : String → List Vec2) (s : MState) (c : ShapeConfig)
    (o : MatterOpts) (ht : c.type = some "polygon") (hs : c.sides = none)
    (hr : c.radius = none) :
    (setBody fp s (some (.obj c)) o).go.body = some s.nextId ∧
    ((setBody fp s (some (.obj c)) o).bodies s.nextId).map BodyRec.ctor =
      some (.polygon (GetFastValue c.x s.go.tempVecX) (GetFastValue c.y s.go.tempVecY) 5
        (max (GetFastValue c.width s.go.width) (GetFastValue c.height s.go.height) / 2)
        o) := by
  rw [setBody_obj_polygon fp s c o ht]
  refine ⟨setExistingBody_go_body .., ?_⟩
  rw [setExistingBody_bodies_self]
  simp [allocBody, hs, hr, GetFastValue, markParts, installDestroy]

/-- Witness for C8: on the host entity of width 10 and height 10 the resolved
values are sides 5 and radius 5. -/
theorem polygon_defaults_w :
    (cPolyW.type = some "polygon" ∧ cPolyW.sides = none ∧ cPolyW.radius = none) ∧
    ((setBody (fun _ => []) s10 (some (.obj cPolyW)) {}).go.body = some 0 ∧
     ((setBody (fun _ => []) s10 (some (.obj cPolyW)) {}).bodies 0).map BodyRec.ctor =
       some (.polygon 0 0 5 5 {})) := by
  refine ⟨⟨rfl, rfl, rfl⟩, ?_⟩
  have h := polygon_defaults (fun _ => []) s10 cPolyW {} rfl rfl rfl
  with_unfolding_all exact h

/-- Claim C9 — a config object with no shape-kind field at all is dispatched
as a rectangle: a rectangle body sized from the host entity's width and
height is constructed and attached (not a no-op, not an error). -/
theorem missing_type_defaults_rectangle (fp : String → List Vec2) (s : MState)
    (c : ShapeConfig) (o : MatterOpts) (ht : c.type = none) (hw : c.width = none)
    (hh : c.height = none) :
    (setBody fp s (some (.obj c)) o).go.body = some s.nextId ∧
    ((setBody fp s (some (.obj c)) o).bodies s.nextId).map BodyRec.ctor =
      some (.rectangle (GetFastValue c.x s.go.tempVecX) (GetFastValue c.y s.go.tempVecY)
        s.go.width s.go.height o) := by
  rw [setBody_obj_noType fp s c o ht]
  refine ⟨setExistingBody_go_body .., ?_⟩
  rw [setExistingBody_bodies_self]
  simp [allocBody, hw, hh, GetFastValue, markParts, installDestroy]

/-- Witness for C9: the empty config object on `s0` attaches a rectangle body
of the entity's size 40 by 20. -/
theorem missing_type_defaults_rectangle_w :
    (({} : ShapeConfig).type = none ∧ ({} : ShapeConfig).width = none ∧
      ({} : ShapeConfig).height = none) ∧
    ((setBody (fun _ => []) s0 (some (.obj {})) {}).go.body = some 2 ∧
     ((setBody (fun _ => []) s0 (some (.obj {})) {}).bodies 2).map BodyRec.ctor =
       some (.rectangle 0 0 40 20 {})) := by
  refine ⟨⟨rfl, rfl, rfl⟩, ?_⟩
  have h := missing_type_defaults_rectangle (fun _ => []) s0 {} {} rfl rfl rfl
  with_unfolding_all exact h

/-- Claim C10 — each of the four shape builders always ends with its freshly
constructed body added to the simulation world and installed on the entity:
the `addToWorld` flag is read from the config record the builder constructs
(which never carries it, so it defaults to true), and nothing in the
builders' `options` argument — here quantified over all values, including
`addToWorld = false` inside options — can disable world addition. -/
theorem builders_always_add_to_world (fp : String → List Vec2) (s : MState)
    (w h r sd sl : Rat) (o : MatterOpts) :
    ((setRectangle fp s w h o).go.body = some s.nextId ∧
      s.nextId ∈ (setRectangle fp s w h o).world) ∧
    ((setCircle fp s r o).go.body = some s.nextId ∧
      s.nextId ∈ (setCircle fp s r o).world) ∧
    ((setPolygon fp s r sd o).go.body = some s.nextId ∧
      s.nextId ∈ (setPolygon fp s r sd o).world) ∧
    ((setTrapezoid fp s w h sl o).go.body = some s.nextId ∧
      s.nextId ∈ (setTrapezoid fp s w h sl o).world) := by
  refine ⟨⟨?_, ?_⟩, ⟨?_, ?_⟩, ⟨?_, ?_⟩, ⟨?_, ?_⟩⟩
  · simp only [setRectangle]
    rw [setBody_obj_rectangle _ _ _ _ rfl]
    exact setExistingBody_go_body ..
  · simp only [setRectangle]
    rw [setBody_obj_rectangle _ _ _ _ rfl, setExistingBody_world]
    simp
  · simp only [setCircle]
    rw [setBody_obj_circle _ _ _ _ rfl]
    exact setExistingBody_go_body ..
  · simp only [setCircle]
    rw [setBody_obj_circle _ _ _ _ rfl, setExistingBody_world]
    simp
  · simp only [setPolygon]
    rw [setBody_obj_polygon _ _ _ _ rfl]
    exact setExistingBody_go_body ..
  · simp only [setPolygon]
    rw [setBody_obj_polygon _ _ _ _ rfl, setExistingBody_world]
    simp
  · simp only [setTrapezoid]
    rw [setBody_obj_trapezoid _ _ _ _ rfl]
    exact setExistingBody_go_body ..
  · simp only [setTrapezoid]
    rw [setBody_obj_trapezoid _ _ _ _ rfl, setExistingBody_world]
    simp

end SetBodyModel
